import Mathlib

/-!
Verification of the `pymongo-plus` convenience layer (src/demo.py,
src/base-wrapper.py) against its specification.

The repository is a thin orchestration layer over a document database
(MongoDB Atlas) and an embedding provider (OpenAI).  We embed the layer's
own logic shallowly:

* the Database Gateway's persisted state (collections, documents, search
  indexes) is a `GatewayState`; the gateway operations the code calls
  (`list_collection_names`, `insert_one`, `delete_one`,
  `create_search_index`, `list_search_indexes`) are pure state
  transformers on it;
* each method of `PymongoPlus` becomes a function from the state (plus its
  Python arguments) to the new state together with a log of the write
  operations / events it issued, so that claims about "how many calls the
  gateway received" are statements about the log;
* Python exceptions become `Except String`; a caught exception is a
  matched `.error`, a propagated one is an `.error` result;
* numeric vector entries are carried as `Rat` — the layer never performs
  arithmetic on them (only lengths and equality matter), so the carrier
  type is irrelevant to every claim.
-/

/-- A vector field entry of a search-index definition, as built by
`PymongoPlus._create_search_index` (`demo.py` lines 84-97):
`{"type": ..., "numDimensions": ..., "path": ..., "similarity": ...}`. -/
structure VectorField where
  type : String
  numDimensions : Nat
  path : String
  similarity : String
deriving DecidableEq, Repr

/-- Embeds `SearchIndexModel(definition={"fields": [...]}, name=..., type=...)`
from `pymongo.operations`, restricted to the shape the code builds. -/
structure SearchIndexModel where
  fields : List VectorField
  name : String
  type : String
deriving DecidableEq, Repr

/-- The persisted state owned by the Database Gateway: which
(database, collection) pairs exist, which documents (keyed by `_id`)
each holds, and which search indexes each carries. -/
structure GatewayState where
  collections : List (String × String)
  documents : List (String × String × Int)
  search_indexes : List (String × String × SearchIndexModel)
deriving DecidableEq, Repr

/-- A write operation issued to the gateway; the logs of the provisioning
functions are lists of these. -/
inductive WriteOp where
  | insertOne (db coll : String) (docId : Int)
  | deleteOne (db coll : String) (docId : Int)
  | createSearchIndex (db coll : String) (model : SearchIndexModel)
deriving DecidableEq, Repr

/-- Embeds `database.list_collection_names()` for `database = self[database_name]`. -/
def list_collection_names (s : GatewayState) (database_name : String) : List String :=
  (s.collections.filter (fun p => p.1 == database_name)).map (fun p => p.2)

/-- Embeds `collection.insert_one({"_id": docId, ...})`: inserting a document
materializes the (schemaless) collection if it did not exist. -/
def insert_one (s : GatewayState) (db coll : String) (docId : Int) : GatewayState :=
  { s with
    collections :=
      if (db, coll) ∈ s.collections then s.collections else s.collections ++ [(db, coll)]
    documents := s.documents ++ [(db, coll, docId)] }

/-- Embeds `collection.delete_one({"_id": docId})`: removes (at most) one matching
document; the collection itself stays listed. -/
def delete_one (s : GatewayState) (db coll : String) (docId : Int) : GatewayState :=
  { s with documents := s.documents.eraseP (fun d => d.1 == db && d.2.1 == coll && d.2.2 == docId) }

/-- Embeds `collection.create_search_index(model=...)`. -/
def create_search_index (s : GatewayState) (db coll : String) (model : SearchIndexModel) :
    GatewayState :=
  { s with search_indexes := s.search_indexes ++ [(db, coll, model)] }

/-- Embeds `list(collection.list_search_indexes())` for `self[db][coll]`
(the success path of the underlying query). -/
def list_search_indexes (s : GatewayState) (db coll : String) : List SearchIndexModel :=
  (s.search_indexes.filter (fun t => t.1 == db && t.2.1 == coll)).map (fun t => t.2.2)

/-- Embeds `PymongoPlus.index_exists` (`demo.py` lines 154-172), as a function of
the outcome of the underlying list-query: on a successful query it tests
`any(index["name"] == index_name for index in indexes)`; on any raised
exception (`OperationFailure` or generic) it returns `False`.  It is a
total function into `Bool`, so it never raises. -/
def index_exists (queryResult : Except String (List SearchIndexModel))
    (index_name : String) : Bool :=
  match queryResult with
  | .ok indexes => indexes.any (fun index => index.name == index_name)
  | .error _ => false

/-- Embeds `PymongoPlus.create_if_not_exists` (`demo.py` lines 33-53): list the
collection names; if absent, insert then delete the sentinel document
`{"_id": 0}`; return the new state and the log of writes issued. -/
def create_if_not_exists (s : GatewayState) (database_name collection_name : String) :
    GatewayState × List WriteOp :=
  let collection_names := list_collection_names s database_name
  if collection_name ∉ collection_names then
    let s1 := insert_one s database_name collection_name 0
    let s2 := delete_one s1 database_name collection_name 0
    (s2, [WriteOp.insertOne database_name collection_name 0,
          WriteOp.deleteOne database_name collection_name 0])
  else
    (s, [])

/-- The `SearchIndexModel` literal built at `demo.py` lines 84-97: one
vector field on path `"embedding"`, with the dimensionality probed by
calling `get_embedding("0")`. -/
def built_index_model (index_name : String) (get_embedding : String → List Rat)
    (distance_metric : String) : SearchIndexModel :=
  { fields := [{ type := "vector"
                 numDimensions := (get_embedding "0").length
                 path := "embedding"
                 similarity := distance_metric }]
    name := index_name
    type := "vectorSearch" }

/-- Embeds `PymongoPlus._create_search_index` (`demo.py` lines 55-111): ensure the
collection, return without action if the index already exists, otherwise
build the `SearchIndexModel` (probing `get_embedding "0"` for the
dimensionality) and issue one `create_search_index` call. -/
def _create_search_index (s : GatewayState) (database_name collection_name index_name : String)
    (get_embedding : String → List Rat) (distance_metric : String) :
    GatewayState × List WriteOp :=
  let r1 := create_if_not_exists s database_name collection_name
  if index_exists (.ok (list_search_indexes r1.1 database_name collection_name)) index_name then
    (r1.1, r1.2)
  else
    let search_index_model := built_index_model index_name get_embedding distance_metric
    (create_search_index r1.1 database_name collection_name search_index_model,
     r1.2 ++ [WriteOp.createSearchIndex database_name collection_name search_index_model])

/-- The index-creation calls among a log of write operations. -/
def creation_ops (w : List WriteOp) : List WriteOp :=
  w.filter (fun op => match op with
    | WriteOp.createSearchIndex _ _ _ => true
    | _ => false)

/-- One metadata entry of a document, `doc.get("meta_data", {})` defaulting
to the empty mapping. -/
def MetaData := List (String × String)
deriving DecidableEq, Repr, Inhabited

/-- A raw record as it flows through the aggregation pipeline.  Every
MongoDB document has an `_id`; the other fields may be absent
(`doc["content"]` raises `KeyError` when `content` is, which the search
`try` block catches). -/
structure RawDoc where
  _id : Int
  name : Option String
  content : Option String
  meta_data : Option MetaData
  embedding : Option (List Rat)
  score : Option Rat
deriving DecidableEq, Repr

/-- The `Document` result type constructed at `demo.py` lines 142-148:
`Document(id=str(doc["_id"]), name=doc.get("name"), content=doc["content"],
meta_data=doc.get("meta_data", {}))` — it has no score and no embedding
field. -/
structure Document where
  id : String
  name : Option String
  content : String
  meta_data : MetaData
deriving DecidableEq, Repr

/-- The aggregation stages `search` builds (`demo.py` lines 125-137):
the `$vectorSearch` stage, the `$set` of `score` from the
`vectorSearchScore` metadata, and the `$project` excluding `embedding`. -/
inductive Stage where
  | vectorSearch (index : String) (limit : Nat) (numCandidates : Nat)
      (queryVector : List Rat) (path : String)
  | setScoreMeta
  | projectExcludeEmbedding
deriving DecidableEq, Repr

/-- The pipeline literal from `demo.py` lines 125-137.  `limit` is the
`search` parameter, in scope at the call site; the stage hardcodes both
its `limit` and `numCandidates` entries to `10` regardless of it. -/
def search_pipeline (index_name : String) (limit : Nat) (query_vector : List Rat) :
    List Stage :=
  [Stage.vectorSearch index_name 10 10 query_vector "embedding",
   Stage.setScoreMeta,
   Stage.projectExcludeEmbedding]

/-- The `numCandidates` entry of a pipeline's leading `$vectorSearch`
stage, when there is one. -/
def pipeline_num_candidates : List Stage → Option Nat
  | Stage.vectorSearch _ _ numCandidates _ _ :: _ => some numCandidates
  | _ => none

/-- Engine semantics of the stages after `$vectorSearch`: the engine
carries each record together with its `vectorSearchScore` metadata;
`$set {score: {$meta: vectorSearchScore}}` copies that metadata into the
`score` field, `$project {embedding: 0}` drops the `embedding` field. -/
def run_stages : List Stage → List (RawDoc × Rat) → List (RawDoc × Rat)
  | [], docs => docs
  | Stage.setScoreMeta :: rest, docs =>
      run_stages rest (docs.map (fun p => ({ p.1 with score := some p.2 }, p.2)))
  | Stage.projectExcludeEmbedding :: rest, docs =>
      run_stages rest (docs.map (fun p => ({ p.1 with embedding := none }, p.2)))
  | Stage.vectorSearch _ _ _ _ _ :: rest, docs => run_stages rest docs

/-- The environment a `search` call runs in: the gateway state (for the
index-existence check), the module-level `get_embedding` function (which
raises on provider failure, hence `Except`; its value is `Option`al to
mirror the `if query_embedding is None` branch), the
`self.embedder.get_embedding` access used inside the pipeline (an absent
`embedder` attribute or a provider failure is an exception, `.error`),
and the engine's execution of `$vectorSearch` on `self._collection`
(records paired with their score metadata; an absent `_collection`
attribute or a server failure is `.error`). -/
structure SearchEnv where
  gateway : GatewayState
  moduleEmbed : String → Except String (Option (List Rat))
  embedder : String → Except String (List Rat)
  engine : String → Nat → Nat → List Rat → Except String (List (RawDoc × Rat))

/-- Embeds `list(self._collection.aggregate(pipeline))` for the pipelines `search`
builds: the leading `$vectorSearch` is executed by the engine, the
remaining stages by `run_stages`. -/
def aggregate (env : SearchEnv) : List Stage → Except String (List RawDoc)
  | Stage.vectorSearch index limit numCandidates queryVector _path :: rest =>
      match env.engine index limit numCandidates queryVector with
      | .ok results => .ok ((run_stages rest results).map (fun p => p.1))
      | .error e => .error e
  | _ => .error "pipeline must start with vectorSearch"

/-- The body of the mapping loop at `demo.py` lines 140-148 for one raw
record: `doc["content"]` raises `KeyError` when absent. -/
def document_of_raw (doc : RawDoc) : Except String Document :=
  match doc.content with
  | none => .error "KeyError: content"
  | some content =>
      .ok { id := toString doc._id
            name := doc.name
            content := content
            meta_data := doc.meta_data.getD [] }

/-- The mapping loop itself: in order, stopping at the first raising
record (the exception is caught by the surrounding `try`). -/
def map_documents : List RawDoc → Except String (List Document)
  | [] => .ok []
  | doc :: rest =>
      match document_of_raw doc with
      | .error e => .error e
      | .ok d =>
          match map_documents rest with
          | .error e => .error e
          | .ok ds => .ok (d :: ds)

/-- The observable calls `search` makes, in order, for claims about call
order and about which collaborator was invoked. -/
inductive SearchEvent where
  | embedCall (text : String)
  | indexCheck (db coll idx : String)
  | embedderCall (text : String)
  | aggregateCall
deriving DecidableEq, Repr

/-- Embeds `PymongoPlus.search` (`demo.py` lines 112-153).  Line order is the
source's: first `query_embedding = get_embedding(query)` (module level —
its exception propagates), then the `index_exists` check returning `[]`
on a missing index, then the dead `query_embedding is None` check, then
the `try` block building the pipeline with
`self.embedder.get_embedding(query)`, aggregating, and mapping — any
exception inside the `try` is caught and `[]` is returned.  The `filters`
parameter is accepted and never read.  The result is paired with the
event trace. -/
def search (env : SearchEnv) (query : String) (limit : Nat)
    (database_name collection_name index_name : String)
    (filters : Option (List (String × String))) :
    Except String (List Document) × List SearchEvent :=
  match env.moduleEmbed query with
  | .error e => (.error e, [SearchEvent.embedCall query])
  | .ok query_embedding =>
    if !(index_exists (.ok (list_search_indexes env.gateway database_name collection_name))
          index_name) then
      (.ok [], [SearchEvent.embedCall query,
                SearchEvent.indexCheck database_name collection_name index_name])
    else if query_embedding = none then
      (.ok [], [SearchEvent.embedCall query,
                SearchEvent.indexCheck database_name collection_name index_name])
    else
      let ev := [SearchEvent.embedCall query,
                 SearchEvent.indexCheck database_name collection_name index_name,
                 SearchEvent.embedderCall query]
      match env.embedder query with
      | .error _ => (.ok [], ev)
      | .ok qv =>
        match aggregate env (search_pipeline index_name limit qv) with
        | .error _ => (.ok [], ev ++ [SearchEvent.aggregateCall])
        | .ok agg =>
          match map_documents agg with
          | .error _ => (.ok [], ev ++ [SearchEvent.aggregateCall])
          | .ok docs => (.ok docs, ev ++ [SearchEvent.aggregateCall])

/-- States of the index-readiness poller (spec §4.3). -/
inductive PollState where
  | Unknown
  | Checking
  | Ready
  | TimedOut
deriving DecidableEq, Repr

/-- Outcome of a polling run: the terminal state, the number of
`index_exists` checks performed, and the number of 1-second waits
(`time.sleep(1)` calls) performed. -/
structure PollResult where
  state : PollState
  checks : Nat
  waits : Nat
deriving DecidableEq, Repr

/-- The loop body of `demo.py` lines 197-204, at the check with (0-based)
index `c`; `visible c` is what `client.index_exists(...)` returns on the
`c`-th call.  `fuel = max_attempts - c` counts how many more false checks
are allowed before `attempt > max_attempts` breaks the loop: after a
false check the loop increments `attempt` (making it `c + 1`), breaks
when `c + 1 > max_attempts` (that is, when `fuel = 0`), and otherwise
sleeps one second and re-checks. -/
def poll_go (visible : Nat → Bool) (c : Nat) : Nat → PollResult
  | 0 =>
      if visible c then { state := PollState.Ready, checks := c + 1, waits := c }
      else { state := PollState.TimedOut, checks := c + 1, waits := c }
  | fuel + 1 =>
      if visible c then { state := PollState.Ready, checks := c + 1, waits := c }
      else poll_go visible (c + 1) fuel

/-- The readiness-polling loop of `demo.py` lines 196-204: `attempt = 0`,
then `while not client.index_exists(...)` with the body above. -/
def poll_loop (visible : Nat → Bool) (max_attempts : Nat) : PollResult :=
  poll_go visible 0 max_attempts

/-- The request `get_embedding` sends to the embedding provider
(`demo.py` line 15): `embeddings.create(input=[text], model=model,
dimensions=dimensions)`. -/
structure ProviderRequest where
  input : List String
  model : String
  dimensions : Nat
deriving DecidableEq, Repr

/-- Embeds `text.replace("\n", " ")` from `demo.py` line 13: the pattern is the
single newline character, so the replacement is a character map. -/
def replace_newlines (text : List Char) : List Char :=
  text.map (fun ch => if ch = '\n' then ' ' else ch)

/-- Embeds `get_embedding` (`demo.py` lines 12-18) up to the provider call: the
request it sends, after normalizing the text.  Defaults are
`model="text-embedding-3-small"`, `dimensions=256`. -/
def get_embedding_request (text : String) (model : String) (dimensions : Nat) :
    ProviderRequest :=
  { input := [String.mk (replace_newlines text.data)]
    model := model
    dimensions := dimensions }

/-- A gateway with no databases, collections or indexes. -/
def emptyGateway : GatewayState :=
  { collections := [], documents := [], search_indexes := [] }

/-- A search environment over an empty gateway (so no index exists) whose
embedding provider succeeds. -/
def sampleEnvNoIndex : SearchEnv :=
  { gateway := emptyGateway
    moduleEmbed := fun _ => .ok (some [(1 : Rat)])
    embedder := fun _ => .ok [(1 : Rat)]
    engine := fun _ _ _ _ => .ok [] }

/-- A vector-search index descriptor named `vec_idx`, as
`_create_search_index` would build it for a 2-dimensional embedding. -/
def vecIdxModel : SearchIndexModel :=
  { fields := [{ type := "vector", numDimensions := 2, path := "embedding",
                 similarity := "cosine" }]
    name := "vec_idx"
    type := "vectorSearch" }

/-- A gateway holding collection `kb.docs` carrying the index `vec_idx`. -/
def gatewayWithIdx : GatewayState :=
  { collections := [("kb", "docs")]
    documents := []
    search_indexes := [("kb", "docs", vecIdxModel)] }

/-- A stored record with all fields present, as the engine would return it
(before the `$set`/`$project` stages run). -/
def rawDocA : RawDoc :=
  { _id := 7, name := some "n", content := some "c", meta_data := some []
    embedding := some [(1 : Rat)], score := none }

/-- Environment whose engine reports `rawDocA` with score metadata 9. -/
def envScoreHigh : SearchEnv :=
  { gateway := gatewayWithIdx
    moduleEmbed := fun _ => .ok (some [(1 : Rat)])
    embedder := fun _ => .ok [(1 : Rat)]
    engine := fun _ _ _ _ => .ok [(rawDocA, (9 : Rat))] }

/-- Same as `envScoreHigh` except the engine's score metadata is 1. -/
def envScoreLow : SearchEnv :=
  { gateway := gatewayWithIdx
    moduleEmbed := fun _ => .ok (some [(1 : Rat)])
    embedder := fun _ => .ok [(1 : Rat)]
    engine := fun _ _ _ _ => .ok [(rawDocA, (1 : Rat))] }

/-- Environment where the index exists and the module-level embedding
succeeds but the in-pipeline `self.embedder` access raises. -/
def envEmbedderRaises : SearchEnv :=
  { gateway := gatewayWithIdx
    moduleEmbed := fun _ => .ok (some [(1 : Rat)])
    embedder := fun _ => .error "AttributeError: embedder"
    engine := fun _ _ _ _ => .ok [] }

/-- An index-visibility trace that reports the index present from the
second check (0-based check 1) onward. -/
def visibleFromSecond : Nat → Bool := fun n => n != 0

/-- An index-visibility trace that never reports the index present. -/
def neverVisible : Nat → Bool := fun _ => false

/-- A sample embedding function of dimensionality 2 for witnesses. -/
def sampleEmb : String → List Rat := fun _ => [(1 : Rat), 0]

theorem mem_list_collection_names (s : GatewayState) (db coll : String) :
    coll ∈ list_collection_names s db ↔ (db, coll) ∈ s.collections := by
  simp only [list_collection_names, List.mem_map, List.mem_filter, beq_iff_eq]
  constructor
  · rintro ⟨⟨a, b⟩, ⟨hmem, rfl⟩, rfl⟩
    exact hmem
  · intro h
    exact ⟨(db, coll), ⟨h, rfl⟩, rfl⟩

theorem collections_insert_one_mem (s : GatewayState) (db coll : String) (docId : Int) :
    (db, coll) ∈ (insert_one s db coll docId).collections := by
  simp only [insert_one]
  split
  · assumption
  · simp

theorem collections_delete_one (s : GatewayState) (db coll : String) (docId : Int) :
    (delete_one s db coll docId).collections = s.collections := rfl

theorem mem_collection_names_create_if_not_exists (s : GatewayState) (db coll : String) :
    coll ∈ list_collection_names (create_if_not_exists s db coll).1 db := by
  by_cases h : coll ∈ list_collection_names s db
  · simp only [create_if_not_exists, h, not_true, if_neg, if_false, not_false_eq_true]
  · simp only [create_if_not_exists, h, not_false_iff, if_true]
    rw [mem_list_collection_names, collections_delete_one]
    exact collections_insert_one_mem s db coll 0

/-- C3: for a collection name not already listed, `create_if_not_exists`
issues exactly the insert/delete pair of the sentinel document `_id = 0`
and leaves the collection listed afterward; for an already-listed name it
issues zero writes and leaves the gateway state unchanged. -/
theorem create_if_not_exists_spec (s : GatewayState) (db coll : String) :
    (coll ∉ list_collection_names s db →
       (create_if_not_exists s db coll).2 =
         [WriteOp.insertOne db coll 0, WriteOp.deleteOne db coll 0] ∧
       coll ∈ list_collection_names (create_if_not_exists s db coll).1 db) ∧
    (coll ∈ list_collection_names s db →
       (create_if_not_exists s db coll).2 = [] ∧ (create_if_not_exists s db coll).1 = s) := by
  constructor
  · intro h
    refine ⟨?_, mem_collection_names_create_if_not_exists s db coll⟩
    simp [create_if_not_exists, h]
  · intro h
    simp [create_if_not_exists, h]

/-- Witness for `create_if_not_exists_spec`: provisioning `kb.docs` on an
empty gateway issues the insert/delete pair and lists the collection. -/
theorem create_if_not_exists_spec_witness :
    "docs" ∉ list_collection_names emptyGateway "kb" ∧
    ((create_if_not_exists emptyGateway "kb" "docs").2 =
       [WriteOp.insertOne "kb" "docs" 0, WriteOp.deleteOne "kb" "docs" 0] ∧
     "docs" ∈ list_collection_names (create_if_not_exists emptyGateway "kb" "docs").1 "kb") :=
  ⟨by decide, (create_if_not_exists_spec emptyGateway "kb" "docs").1 (by decide)⟩

/-- C4: `index_exists` returns `true` exactly when the underlying
list-query succeeded and some listed index has the requested name; in
particular it returns `false` on every failed query.  Being a total
function into `Bool`, it raises nothing. -/
theorem index_exists_iff (queryResult : Except String (List SearchIndexModel))
    (index_name : String) :
    index_exists queryResult index_name = true ↔
      ∃ indexes, queryResult = Except.ok indexes ∧ ∃ ix ∈ indexes, ix.name = index_name := by
  cases queryResult with
  | ok indexes => simp [index_exists, List.any_eq_true, beq_iff_eq]
  | error e => simp [index_exists]

theorem search_indexes_create_if_not_exists (s : GatewayState) (db coll : String) :
    ((create_if_not_exists s db coll).1).search_indexes = s.search_indexes := by
  by_cases h : coll ∈ list_collection_names s db <;>
    simp [create_if_not_exists, h, insert_one, delete_one]

theorem list_search_indexes_congr {s t : GatewayState} (db coll : String)
    (h : s.search_indexes = t.search_indexes) :
    list_search_indexes s db coll = list_search_indexes t db coll := by
  simp [list_search_indexes, h]

theorem list_search_indexes_create (s : GatewayState) (db coll : String)
    (m : SearchIndexModel) :
    list_search_indexes (create_search_index s db coll m) db coll =
      list_search_indexes s db coll ++ [m] := by
  simp [list_search_indexes, create_search_index, List.filter_append]

theorem creation_ops_append (w1 w2 : List WriteOp) :
    creation_ops (w1 ++ w2) = creation_ops w1 ++ creation_ops w2 := by
  simp [creation_ops, List.filter_append]

theorem creation_ops_create_if_not_exists (s : GatewayState) (db coll : String) :
    creation_ops (create_if_not_exists s db coll).2 = [] := by
  by_cases h : coll ∈ list_collection_names s db <;>
    simp [create_if_not_exists, h, creation_ops]

theorem _create_search_index_of_absent (s : GatewayState) (db coll idx : String)
    (emb : String → List Rat) (metric : String)
    (h : index_exists (.ok (list_search_indexes s db coll)) idx = false) :
    _create_search_index s db coll idx emb metric =
      (create_search_index (create_if_not_exists s db coll).1 db coll
         (built_index_model idx emb metric),
       (create_if_not_exists s db coll).2 ++
         [WriteOp.createSearchIndex db coll (built_index_model idx emb metric)]) := by
  have hinv : list_search_indexes (create_if_not_exists s db coll).1 db coll =
      list_search_indexes s db coll :=
    list_search_indexes_congr db coll (search_indexes_create_if_not_exists s db coll)
  simp only [_create_search_index, hinv, h, Bool.false_eq_true, if_false]

theorem creation_ops_single_create (db coll : String) (m : SearchIndexModel) :
    creation_ops [WriteOp.createSearchIndex db coll m] =
      [WriteOp.createSearchIndex db coll m] := rfl

theorem creation_ops_nil : creation_ops [] = [] := rfl

theorem _create_search_index_noop (s : GatewayState) (db coll idx : String)
    (emb : String → List Rat) (metric : String)
    (hcoll : coll ∈ list_collection_names s db)
    (hidx : index_exists (.ok (list_search_indexes s db coll)) idx = true) :
    _create_search_index s db coll idx emb metric = (s, []) := by
  have h1 : create_if_not_exists s db coll = (s, []) := by
    simp [create_if_not_exists, hcoll]
  simp only [_create_search_index, h1, hidx, if_true]

/-- C2: `ensure_search_index` (`_create_search_index`) is idempotent.
Starting from a state where the index is absent, the first call issues
exactly one index-creation write, the second call with the same arguments
is a no-op (same state, no writes), and the combined log of both calls
holds exactly one index-creation call. -/
theorem ensure_search_index_idempotent (s : GatewayState) (db coll idx : String)
    (emb : String → List Rat) (metric : String)
    (h : index_exists (.ok (list_search_indexes s db coll)) idx = false) :
    (creation_ops (_create_search_index s db coll idx emb metric).2).length = 1 ∧
    _create_search_index (_create_search_index s db coll idx emb metric).1
        db coll idx emb metric =
      ((_create_search_index s db coll idx emb metric).1, []) ∧
    (creation_ops ((_create_search_index s db coll idx emb metric).2 ++
        (_create_search_index (_create_search_index s db coll idx emb metric).1
           db coll idx emb metric).2)).length = 1 := by
  have hfirst := _create_search_index_of_absent s db coll idx emb metric h
  have hops : (creation_ops (_create_search_index s db coll idx emb metric).2).length = 1 := by
    rw [hfirst]
    simp [creation_ops_append, creation_ops_create_if_not_exists, creation_ops_single_create]
  have hcoll2 : coll ∈
      list_collection_names (_create_search_index s db coll idx emb metric).1 db := by
    rw [hfirst]
    have : (create_search_index (create_if_not_exists s db coll).1 db coll
        (built_index_model idx emb metric)).collections =
        ((create_if_not_exists s db coll).1).collections := rfl
    rw [mem_list_collection_names, this, ← mem_list_collection_names]
    exact mem_collection_names_create_if_not_exists s db coll
  have hidx2 : index_exists
      (.ok (list_search_indexes (_create_search_index s db coll idx emb metric).1 db coll))
      idx = true := by
    rw [hfirst]
    rw [list_search_indexes_create]
    simp [index_exists, List.any_append, built_index_model]
  have hsecond := _create_search_index_noop
    (_create_search_index s db coll idx emb metric).1 db coll idx emb metric hcoll2 hidx2
  refine ⟨hops, hsecond, ?_⟩
  rw [hsecond]
  simpa [creation_ops_append, creation_ops_nil] using hops

/-- Witness for `ensure_search_index_idempotent`: provisioning `vec_idx`
on `kb.docs` twice over an empty gateway issues exactly one
index-creation call. -/
theorem ensure_search_index_idempotent_witness :
    index_exists (.ok (list_search_indexes emptyGateway "kb" "docs")) "vec_idx" = false ∧
    ((creation_ops
        (_create_search_index emptyGateway "kb" "docs" "vec_idx" sampleEmb "cosine").2).length
        = 1 ∧
     _create_search_index
         (_create_search_index emptyGateway "kb" "docs" "vec_idx" sampleEmb "cosine").1
         "kb" "docs" "vec_idx" sampleEmb "cosine" =
       ((_create_search_index emptyGateway "kb" "docs" "vec_idx" sampleEmb "cosine").1, []) ∧
     (creation_ops
        ((_create_search_index emptyGateway "kb" "docs" "vec_idx" sampleEmb "cosine").2 ++
         (_create_search_index
            (_create_search_index emptyGateway "kb" "docs" "vec_idx" sampleEmb "cosine").1
            "kb" "docs" "vec_idx" sampleEmb "cosine").2)).length = 1) :=
  ⟨by decide,
   ensure_search_index_idempotent emptyGateway "kb" "docs" "vec_idx" sampleEmb "cosine"
     (by decide)⟩

theorem poll_go_ready (visible : Nat → Bool) :
    ∀ (i : Nat) (c fuel : Nat), (∀ j, j < i → visible (c + j) = false) →
      visible (c + i) = true → i ≤ fuel →
      poll_go visible c fuel =
        { state := PollState.Ready, checks := c + i + 1, waits := c + i } := by
  intro i
  induction i with
  | zero =>
      intro c fuel _ htrue _
      cases fuel with
      | zero => simp [poll_go, show visible c = true by simpa using htrue]
      | succ f => simp [poll_go, show visible c = true by simpa using htrue]
  | succ n ih =>
      intro c fuel hfalse htrue hle
      have hc : visible c = false := by simpa using hfalse 0 (Nat.succ_pos n)
      cases fuel with
      | zero => omega
      | succ f =>
          have step : poll_go visible c (f + 1) = poll_go visible (c + 1) f := by
            simp [poll_go, hc]
          rw [step]
          have h1 : ∀ j, j < n → visible (c + 1 + j) = false := by
            intro j hj
            have := hfalse (j + 1) (by omega)
            simpa [Nat.add_assoc, Nat.add_comm 1 j] using this
          have h2 : visible (c + 1 + n) = true := by
            have := htrue
            simpa [Nat.add_assoc, Nat.add_comm 1 n] using this
          have := ih (c + 1) f h1 h2 (by omega)
          rw [this]
          have e1 : c + 1 + n = c + (n + 1) := by omega
          rw [e1]

theorem poll_go_timeout (visible : Nat → Bool) (h : ∀ j, visible j = false) :
    ∀ (fuel c : Nat), poll_go visible c fuel =
      { state := PollState.TimedOut, checks := c + fuel + 1, waits := c + fuel } := by
  intro fuel
  induction fuel with
  | zero => intro c; simp [poll_go, h c]
  | succ f ih =>
      intro c
      have step : poll_go visible c (f + 1) = poll_go visible (c + 1) f := by
        simp [poll_go, h c]
      rw [step, ih (c + 1)]
      have e1 : c + 1 + f = c + (f + 1) := by omega
      rw [e1]

/-- C7: the readiness-polling loop of `demo.py` lines 196-204, with checks
separated by one `time.sleep(1)`.  If the index first becomes visible on
check `i` (0-based; the `i + 1`-st check, within the attempt budget), the
loop ends `Ready` after exactly `i + 1` checks and `i` one-second waits;
if the index never becomes visible, it ends `TimedOut` after exactly
`max_attempts + 1` checks and `max_attempts` waits. -/
theorem poll_loop_spec (visible never : Nat → Bool) (max_attempts i : Nat)
    (hbefore : ∀ j, j < i → visible j = false) (hvis : visible i = true)
    (hwithin : i < max_attempts) (hnever : ∀ j, never j = false) :
    poll_loop visible max_attempts =
      { state := PollState.Ready, checks := i + 1, waits := i } ∧
    poll_loop never max_attempts =
      { state := PollState.TimedOut, checks := max_attempts + 1, waits := max_attempts } := by
  constructor
  · have := poll_go_ready visible i 0 max_attempts
      (by intro j hj; simpa using hbefore j hj) (by simpa using hvis) (by omega)
    simpa [poll_loop] using this
  · have := poll_go_timeout never hnever max_attempts 0
    simpa [poll_loop] using this

/-- Witness for `poll_loop_spec`: with 3 max attempts and an index visible
from the second check on, the poller ends `Ready` after exactly 2 checks
and 1 wait; a never-visible index ends `TimedOut` after 4 checks. -/
theorem poll_loop_spec_witness :
    (∀ j, j < 1 → visibleFromSecond j = false) ∧ visibleFromSecond 1 = true ∧ 1 < 3 ∧
    (∀ j, neverVisible j = false) ∧
    (poll_loop visibleFromSecond 3 =
       { state := PollState.Ready, checks := 2, waits := 1 } ∧
     poll_loop neverVisible 3 =
       { state := PollState.TimedOut, checks := 4, waits := 3 }) :=
  ⟨by decide, by decide, by decide, fun _ => rfl,
   poll_loop_spec visibleFromSecond neverVisible 3 1 (by decide) (by decide) (by decide)
     (fun _ => rfl)⟩

/-- C1 (amended): against a nonexistent index, `search` returns an empty
sequence; however the embedding provider IS invoked (the module-level
`get_embedding(query)` at `demo.py` line 116) before the index-existence
check at line 117 — there is no short-circuit. -/
theorem search_missing_index_embeds_then_empty (env : SearchEnv) (query : String)
    (limit : Nat) (db coll idx : String) (filters : Option (List (String × String)))
    (v : Option (List Rat))
    (hembed : env.moduleEmbed query = .ok v)
    (hidx : index_exists (.ok (list_search_indexes env.gateway db coll)) idx = false) :
    search env query limit db coll idx filters =
      (.ok [], [SearchEvent.embedCall query, SearchEvent.indexCheck db coll idx]) := by
  simp only [search, hembed, hidx, Bool.not_false, if_true]

/-- Witness for `search_missing_index_embeds_then_empty` on a concrete
environment with no index. -/
theorem search_missing_index_embeds_then_empty_witness :
    sampleEnvNoIndex.moduleEmbed "hello" = .ok (some [(1 : Rat)]) ∧
    index_exists (.ok (list_search_indexes sampleEnvNoIndex.gateway "kb" "docs")) "vec_idx"
      = false ∧
    search sampleEnvNoIndex "hello" 5 "kb" "docs" "vec_idx" none =
      (.ok [], [SearchEvent.embedCall "hello", SearchEvent.indexCheck "kb" "docs" "vec_idx"]) :=
  ⟨rfl, rfl,
   search_missing_index_embeds_then_empty sampleEnvNoIndex "hello" 5 "kb" "docs" "vec_idx"
     none (some [(1 : Rat)]) rfl rfl⟩

/-- Counterexample to C1 as stated: on a concrete environment whose gateway
holds no index, `search` does return the empty sequence, but its event
trace begins with the embedding-provider call and only then performs the
index-existence check — the provider is invoked before the check, so the
claimed short-circuit does not hold. -/
theorem search_embeds_before_index_check_cex :
    search sampleEnvNoIndex "hello" 5 "kb" "docs" "vec_idx" none =
      (.ok [], [SearchEvent.embedCall "hello",
                SearchEvent.indexCheck "kb" "docs" "vec_idx"]) ∧
    (search sampleEnvNoIndex "hello" 5 "kb" "docs" "vec_idx" none).2.head? =
      some (SearchEvent.embedCall "hello") :=
  ⟨rfl, rfl⟩

theorem search_result_shape (env : SearchEnv) (query : String) (limit : Nat)
    (db coll idx : String) (filters : Option (List (String × String)))
    (v : Option (List Rat)) (hembed : env.moduleEmbed query = .ok v) :
    (search env query limit db coll idx filters).1 = .ok [] ∨
    (∃ qv agg docs, env.embedder query = .ok qv ∧
       aggregate env (search_pipeline idx limit qv) = .ok agg ∧
       map_documents agg = .ok docs ∧
       (search env query limit db coll idx filters).1 = .ok docs) := by
  by_cases hc : index_exists (.ok (list_search_indexes env.gateway db coll)) idx = true
  · cases v with
    | none => left; simp [search, hembed, hc]
    | some w =>
      rcases he : env.embedder query with e | qv
      · left; simp [search, hembed, hc, he]
      · rcases ha : aggregate env (search_pipeline idx limit qv) with e | agg
        · left; simp [search, hembed, hc, he, ha]
        · rcases hm : map_documents agg with e | docs
          · left; simp [search, hembed, hc, he, ha, hm]
          · right
            exact ⟨qv, agg, docs, rfl, ha, hm, by simp [search, hembed, hc, he, ha, hm]⟩
  · left
    have hfalse : index_exists (.ok (list_search_indexes env.gateway db coll)) idx = false :=
      Bool.eq_false_iff.mpr hc
    simp [search, hembed, hfalse]

theorem search_ok_empty_of_failure (env : SearchEnv) (query : String) (limit : Nat)
    (db coll idx : String) (filters : Option (List (String × String)))
    (v : Option (List Rat)) (hembed : env.moduleEmbed query = .ok v)
    (hfail : ∀ qv agg docs, env.embedder query = .ok qv →
       aggregate env (search_pipeline idx limit qv) = .ok agg →
       map_documents agg = .ok docs → False) :
    (search env query limit db coll idx filters).1 = .ok [] := by
  rcases search_result_shape env query limit db coll idx filters v hembed with
    h | ⟨qv, agg, docs, h1, h2, h3, _⟩
  · exact h
  · exact (hfail qv agg docs h1 h2 h3).elim

/-- C5: once the module-level embedding has succeeded, `search` never
propagates an exception from the `try` block: its result is always a
returned list, and on a failure of the in-pipeline embedder access, of
the aggregation, or of the record-to-Document mapping, the returned list
is empty. -/
theorem search_swallows_pipeline_exceptions (env : SearchEnv) (query : String) (limit : Nat)
    (db coll idx : String) (filters : Option (List (String × String)))
    (v : Option (List Rat)) (hembed : env.moduleEmbed query = .ok v) :
    (∃ docs, (search env query limit db coll idx filters).1 = .ok docs) ∧
    (∀ e, env.embedder query = .error e →
       (search env query limit db coll idx filters).1 = .ok []) ∧
    (∀ qv e, env.embedder query = .ok qv →
       aggregate env (search_pipeline idx limit qv) = .error e →
       (search env query limit db coll idx filters).1 = .ok []) ∧
    (∀ qv agg e, env.embedder query = .ok qv →
       aggregate env (search_pipeline idx limit qv) = .ok agg →
       map_documents agg = .error e →
       (search env query limit db coll idx filters).1 = .ok []) := by
  refine ⟨?_, ?_, ?_, ?_⟩
  · rcases search_result_shape env query limit db coll idx filters v hembed with
      h | ⟨qv, agg, docs, _, _, _, h⟩
    · exact ⟨[], h⟩
    · exact ⟨docs, h⟩
  · intro e he
    refine search_ok_empty_of_failure env query limit db coll idx filters v hembed ?_
    intro qv agg docs hqv _ _
    rw [he] at hqv
    exact Except.noConfusion hqv
  · intro qv e hqv ha
    refine search_ok_empty_of_failure env query limit db coll idx filters v hembed ?_
    intro qv' agg docs hqv' ha' _
    rw [hqv] at hqv'
    obtain rfl : qv = qv' := by
      exact (Except.ok.injEq qv qv').mp hqv' |>.symm ▸ rfl
    rw [ha] at ha'
    exact Except.noConfusion ha'
  · intro qv agg e hqv ha hm
    refine search_ok_empty_of_failure env query limit db coll idx filters v hembed ?_
    intro qv' agg' docs hqv' ha' hm'
    rw [hqv] at hqv'
    obtain rfl : qv = qv' := by
      exact (Except.ok.injEq qv qv').mp hqv' |>.symm ▸ rfl
    rw [ha] at ha'
    obtain rfl : agg = agg' := by
      exact (Except.ok.injEq agg agg').mp ha' |>.symm ▸ rfl
    rw [hm] at hm'
    exact Except.noConfusion hm'

/-- Witness for `search_swallows_pipeline_exceptions`: in a concrete
environment whose `self.embedder` access raises, `search` returns the
empty list rather than propagating. -/
theorem search_swallows_pipeline_exceptions_witness :
    envEmbedderRaises.moduleEmbed "q" = .ok (some [(1 : Rat)]) ∧
    envEmbedderRaises.embedder "q" = .error "AttributeError: embedder" ∧
    (search envEmbedderRaises "q" 5 "kb" "docs" "vec_idx" none).1 = .ok [] :=
  ⟨rfl, rfl,
   (search_swallows_pipeline_exceptions envEmbedderRaises "q" 5 "kb" "docs" "vec_idx" none
      (some [(1 : Rat)]) rfl).2.1 "AttributeError: embedder" rfl⟩

theorem aggregate_search_pipeline (env : SearchEnv) (idx : String) (limit : Nat)
    (qv : List Rat) (rs : List (RawDoc × Rat)) (h : env.engine idx 10 10 qv = .ok rs) :
    aggregate env (search_pipeline idx limit qv) =
      .ok (rs.map (fun p => { p.1 with score := some p.2, embedding := none })) := by
  simp only [aggregate, search_pipeline, h, run_stages, List.map_map]
  rfl

theorem map_documents_ok (l : List RawDoc) (h : ∀ d ∈ l, d.content ≠ none) :
    map_documents l = .ok (l.map (fun d =>
      { id := toString d._id, name := d.name, content := d.content.getD ""
        meta_data := d.meta_data.getD [] })) := by
  induction l with
  | nil => rfl
  | cons d rest ih =>
      have hd : d.content ≠ none := h d (List.mem_cons_self d rest)
      rcases hc : d.content with _ | c
      · exact absurd hc hd
      · have hrest := ih (fun x hx => h x (List.mem_cons_of_mem d hx))
        simp [map_documents, document_of_raw, hc, hrest]

/-- C8 (amended): on a fully successful run, `search` returns exactly one
Document per engine-returned record, in the engine's returned order (the
engine is what orders matches by descending score); the executed pipeline
does attach the score metadata to each raw record and does exclude the
`embedding` field; but the mapped Document Results carry no relevance
score — the mapping at `demo.py` lines 142-148 reads only `_id`, `name`,
`content` and `meta_data`, dropping `score`. -/
theorem search_success_results (env : SearchEnv) (query : String) (limit : Nat)
    (db coll idx : String) (filters : Option (List (String × String)))
    (v qv : List Rat) (rs : List (RawDoc × Rat))
    (h1 : env.moduleEmbed query = .ok (some v))
    (h2 : index_exists (.ok (list_search_indexes env.gateway db coll)) idx = true)
    (h3 : env.embedder query = .ok qv)
    (h4 : env.engine idx 10 10 qv = .ok rs)
    (h5 : ∀ p ∈ rs, p.1.content ≠ none) :
    aggregate env (search_pipeline idx limit qv) =
      .ok (rs.map (fun p => { p.1 with score := some p.2, embedding := none })) ∧
    (search env query limit db coll idx filters).1 =
      .ok (rs.map (fun p =>
        { id := toString p.1._id, name := p.1.name
          content := p.1.content.getD "", meta_data := p.1.meta_data.getD [] })) := by
  have hagg := aggregate_search_pipeline env idx limit qv rs h4
  refine ⟨hagg, ?_⟩
  have hmap := map_documents_ok
    (rs.map (fun p => { p.1 with score := some p.2, embedding := none }))
    (by
      intro d hd
      simp only [List.mem_map] at hd
      rcases hd with ⟨p, hp, rfl⟩
      exact h5 p hp)
  simp only [search, h1, h2, h3, hagg, hmap, Bool.not_true, Bool.false_eq_true, if_false,
    List.map_map]
  rfl

/-- Witness for `search_success_results` on a concrete successful run. -/
theorem search_success_results_witness :
    envScoreHigh.moduleEmbed "q" = .ok (some [(1 : Rat)]) ∧
    index_exists (.ok (list_search_indexes envScoreHigh.gateway "kb" "docs")) "vec_idx"
      = true ∧
    envScoreHigh.embedder "q" = .ok [(1 : Rat)] ∧
    envScoreHigh.engine "vec_idx" 10 10 [(1 : Rat)] = .ok [(rawDocA, (9 : Rat))] ∧
    (∀ p ∈ [(rawDocA, (9 : Rat))], p.1.content ≠ none) ∧
    (aggregate envScoreHigh (search_pipeline "vec_idx" 5 [(1 : Rat)]) =
       .ok ([(rawDocA, (9 : Rat))].map
         (fun p => { p.1 with score := some p.2, embedding := none })) ∧
     (search envScoreHigh "q" 5 "kb" "docs" "vec_idx" none).1 =
       .ok ([(rawDocA, (9 : Rat))].map (fun p =>
         { id := toString p.1._id, name := p.1.name
           content := p.1.content.getD "", meta_data := p.1.meta_data.getD [] }))) :=
  ⟨rfl, by decide, rfl, rfl, by decide,
   search_success_results envScoreHigh "q" 5 "kb" "docs" "vec_idx" none
     [(1 : Rat)] [(1 : Rat)] [(rawDocA, (9 : Rat))] rfl (by decide) rfl rfl (by decide)⟩

/-- Counterexample to C8 as stated: two concrete successful searches whose
engines report different relevance scores (9 versus 1) for the same
stored record return identical, nonempty Document Results — the results
carry no relevance score derived from the ranking metadata. -/
theorem search_drops_relevance_score_cex :
    envScoreHigh.engine "vec_idx" 10 10 [(1 : Rat)] ≠
      envScoreLow.engine "vec_idx" 10 10 [(1 : Rat)] ∧
    search envScoreHigh "q" 5 "kb" "docs" "vec_idx" none =
      search envScoreLow "q" 5 "kb" "docs" "vec_idx" none ∧
    (search envScoreHigh "q" 5 "kb" "docs" "vec_idx" none).1 =
      .ok [{ id := "7", name := some "n", content := "c", meta_data := [] }] := by
  refine ⟨?_, rfl, rfl⟩
  intro h
  have h1 := congrArg (fun r => match r with | Except.ok ((_, s) :: _) => s | _ => 0) h
  simp [envScoreHigh, envScoreLow] at h1

/-- C9: the `filters` parameter of `search` is accepted but never read
(`demo.py` lines 112-137 build the pipeline without it), so two
invocations differing only in `filters` produce the same result and the
same event trace — and the pipeline builder `search_pipeline` does not
even take `filters` as an input. -/
theorem search_filters_noninterference (env : SearchEnv) (query : String) (limit : Nat)
    (db coll idx : String) (f1 f2 : Option (List (String × String))) :
    search env query limit db coll idx f1 = search env query limit db coll idx f2 := rfl

/-- C6 (code behavior at the failing input): the `$vectorSearch` stage
built by `search` hardcodes `numCandidates` to `10` for every value of
the `limit` parameter; at `limit = 11` the requested candidate pool `10`
is smaller than the result limit, contradicting the claimed
pool-at-least-limit property. -/
theorem search_pipeline_fixed_candidate_pool :
    (∀ (idx : String) (limit : Nat) (qv : List Rat),
       pipeline_num_candidates (search_pipeline idx limit qv) = some 10) ∧
    pipeline_num_candidates (search_pipeline "vector_search_index" 11 [(1 : Rat)])
      = some 10 ∧
    ¬(11 ≤ 10) :=
  ⟨fun _ _ _ => rfl, rfl, by decide⟩

theorem replace_newlines_congr (l1 l2 : List Char)
    (h : List.Forall₂
           (fun a b => a = b ∨ ((a = '\n' ∨ a = ' ') ∧ (b = '\n' ∨ b = ' '))) l1 l2) :
    replace_newlines l1 = replace_newlines l2 := by
  induction h with
  | nil => rfl
  | cons hab htail ih =>
      simp only [replace_newlines, List.map_cons] at ih ⊢
      refine congrArg₂ List.cons ?_ ih
      rcases hab with rfl | ⟨ha, hb⟩
      · rfl
      · rcases ha with rfl | rfl <;> rcases hb with rfl | rfl <;> decide

/-- C10: `get_embedding` rewrites every newline in the text to a space
before sending the provider request, so any two texts that differ only at
positions where one has a newline and the other a newline-or-space yield
the identical provider request, and the sent text contains no newline. -/
theorem get_embedding_normalizes_newlines (t1 t2 : String) (model : String) (dims : Nat)
    (h : List.Forall₂
           (fun a b => a = b ∨ ((a = '\n' ∨ a = ' ') ∧ (b = '\n' ∨ b = ' ')))
           t1.data t2.data) :
    get_embedding_request t1 model dims = get_embedding_request t2 model dims ∧
    ∀ ch ∈ replace_newlines t1.data, ch ≠ '\n' := by
  constructor
  · have heq : replace_newlines t1.data = replace_newlines t2.data :=
      replace_newlines_congr t1.data t2.data h
    simp [get_embedding_request, heq]
  · intro ch hch
    simp only [replace_newlines, List.mem_map] at hch
    rcases hch with ⟨c, _, rfl⟩
    by_cases hc : c = '\n'
    · simp [hc]
    · simp [hc]

/-- Witness for `get_embedding_normalizes_newlines`: the texts `"a\nb"`
and `"a b"` differ only in newline versus space and produce the same
provider request. -/
theorem get_embedding_normalizes_newlines_witness :
    List.Forall₂
        (fun a b => a = b ∨ ((a = '\n' ∨ a = ' ') ∧ (b = '\n' ∨ b = ' ')))
        (String.data "a\nb") (String.data "a b") ∧
    (get_embedding_request "a\nb" "text-embedding-3-small" 256 =
       get_embedding_request "a b" "text-embedding-3-small" 256 ∧
     ∀ ch ∈ replace_newlines (String.data "a\nb"), ch ≠ '\n') := by
  have hf : List.Forall₂
      (fun a b => a = b ∨ ((a = '\n' ∨ a = ' ') ∧ (b = '\n' ∨ b = ' ')))
      (String.data "a\nb") (String.data "a b") := by
    show List.Forall₂ _ ['a', '\n', 'b'] ['a', ' ', 'b']
    exact .cons (Or.inl rfl)
      (.cons (Or.inr ⟨Or.inl rfl, Or.inr rfl⟩) (.cons (Or.inl rfl) .nil))
  exact ⟨hf, get_embedding_normalizes_newlines "a\nb" "a b" "text-embedding-3-small" 256 hf⟩
